import Mathlib

/-!
Shallow embedding of `texar/tf/modules/embedders/embedder_base.py`
(class `EmbedderBase`).

Modelling conventions:
- A tensor is represented by its static shape. `shape_list` of a tensor is
  a `List (Option Nat)`: `some d` for a statically known dimension, `none`
  for a dynamic dimension (which `shape_list` returns as a graph tensor).
  The embedding table produced by `embedder_utils.get_embedding` is a
  framework variable whose shape is fully static, so it is a `List Nat`.
- `embedder_utils.get_embedding` is an external collaborator with a fixed
  contract; its result (the shape of the constructed table) is passed to
  `_init_parameterized_embedding` as the `embShape` argument.
- Python exceptions are modelled with `Except PyError`; reading an
  attribute that was never assigned is `PyError.attributeError`.
- `hparams.dropout_rate` is a rational number standing for the Python float.
-/

instance {ε α : Type} [DecidableEq ε] [DecidableEq α] :
    DecidableEq (Except ε α) := fun a b =>
  match a, b with
  | .ok x, .ok y =>
    if h : x = y then isTrue (by rw [h]) else isFalse (by simp [h])
  | .ok _, .error _ => isFalse (by simp)
  | .error _, .ok _ => isFalse (by simp)
  | .error e, .error f =>
    if h : e = f then isTrue (by rw [h]) else isFalse (by simp [h])

/-- Python errors that the modelled methods can raise. -/
inductive PyError where
  | assertionError
  | valueError (msg : String)
  | attributeError
deriving Repr, DecidableEq

/-- The embedder hyperparameters read by `EmbedderBase`:
`dropout_rate` and `dropout_strategy` in `_get_dropout_layer`,
`trainable` in `_init_parameterized_embedding`. -/
structure HParams where
  dropout_rate : ℚ
  dropout_strategy : String
  trainable : Bool
deriving Repr, DecidableEq

/-- A `tf.layers.Dropout` layer as configured by `_get_dropout_layer`:
only the rate and the noise shape are decided by this file; the random
masking itself is the framework's. The `noise_shape` is `none` for the
Python `noise_shape=None`, and entries `none` model Python `None` or a
dynamic dimension inside a noise-shape list. -/
structure DropoutLayer where
  rate : ℚ
  noise_shape : Option (List (Option Nat))
deriving Repr, DecidableEq

/-- The value stored in `self._dim`: either the list of embedding
dimensions after the first, or, when that list has length one, the single
dimension itself (`self._dim = self._dim[0]`). -/
inductive DimSpec where
  | scalar (n : Nat)
  | dims (l : List Nat)
deriving Repr, DecidableEq

/-- The attribute state of an `EmbedderBase` object. Attributes that are
only assigned in `_init_parameterized_embedding` are `Option`s, `none`
meaning "never assigned". `trainable_variables` models the collection
that `ModuleBase._add_trainable_variable` appends to. -/
structure EmbedderState where
  _num_embeds : Option Nat
  _embedding : Option (List Nat)
  _dim : Option DimSpec
  _dim_rank : Option Nat
  trainable_variables : List (List Nat)
deriving Repr, DecidableEq

/-- `EmbedderBase.__init__`: stores `num_embeds` (possibly `None`); no
other attribute of this class is assigned. -/
def EmbedderBase_init (num_embeds : Option Nat) : EmbedderState :=
  { _num_embeds := num_embeds
    _embedding := none
    _dim := none
    _dim_rank := none
    trainable_variables := [] }

/-- `EmbedderBase._init_parameterized_embedding`. The external call
`embedder_utils.get_embedding(hparams, init_value, num_embeds, scope)`
returns a table whose shape is the parameter `embShape`. The method then
registers it as trainable when `hparams.trainable`, and derives
`_num_embeds`, `_dim` and `_dim_rank` from the shape. -/
def _init_parameterized_embedding (s : EmbedderState) (hparams : HParams)
    (embShape : List Nat) : EmbedderState :=
  let s1 : EmbedderState := { s with _embedding := some embShape }
  let s2 : EmbedderState :=
    if hparams.trainable then
      { s1 with trainable_variables := s1.trainable_variables ++ [embShape] }
    else s1
  let s3 : EmbedderState := { s2 with _num_embeds := some embShape.headI }
  let dim := embShape.tail
  let dim_rank := dim.length
  let dimv : DimSpec :=
    if dim_rank = 1 then DimSpec.scalar dim.headI else DimSpec.dims dim
  { s3 with _dim := some dimv, _dim_rank := some dim_rank }

/-- The strategy resolution at the top of `_get_dropout_layer`:
`st = dropout_strategy; st = hparams.dropout_strategy if st is None else st`. -/
def resolveStrategy (hparams : HParams) (dropout_strategy : Option String) :
    String :=
  match dropout_strategy with
  | none => hparams.dropout_strategy
  | some st => st

/-- `EmbedderBase._get_dropout_layer`. `dropout_input` is the shape list
of the `dropout_input` tensor (or `none` for the Python `None` default).
The method assigns no attribute, so every path returns the state
unchanged, paired with the returned layer (`Option DropoutLayer`) or the
raised exception. -/
def _get_dropout_layer (s : EmbedderState) (hparams : HParams)
    (ids_rank : Option Nat) (dropout_input : Option (List (Option Nat)))
    (dropout_strategy : Option String) :
    EmbedderState × Except PyError (Option DropoutLayer) :=
  if hparams.dropout_rate > 0 then
    if resolveStrategy hparams dropout_strategy = "element" then
      (s, .ok (some { rate := hparams.dropout_rate, noise_shape := none }))
    else if resolveStrategy hparams dropout_strategy = "item" then
      match dropout_input with
      | none => (s, .error .assertionError)
      | some dinput =>
        match ids_rank with
        | none => (s, .error .assertionError)
        | some r =>
          match s._dim_rank with
          | none => (s, .error .attributeError)
          | some dr =>
            (s, .ok (some { rate := hparams.dropout_rate,
                            noise_shape :=
                              some (dinput.take r ++
                                    List.replicate dr (some 1)) }))
    else if resolveStrategy hparams dropout_strategy = "item_type" then
      match s._dim_rank with
      | none => (s, .error .attributeError)
      | some dr =>
        (s, .ok (some { rate := hparams.dropout_rate,
                        noise_shape :=
                          some (none :: List.replicate dr (some 1)) }))
    else
      (s, .error (.valueError ("Unknown dropout strategy: " ++
                               resolveStrategy hparams dropout_strategy)))
  else
    (s, .ok none)

/-- `EmbedderBase.default_hparams`: the dictionary with the single entry
"name": "embedder". -/
def default_hparams : List (String × String) :=
  [("name", "embedder")]

/-- The `num_embeds` property: returns `self._num_embeds`. -/
def EmbedderState.num_embeds (s : EmbedderState) : Option Nat :=
  s._num_embeds

/-- C4: after `_init_parameterized_embedding` on a table of shape
`d0 :: rest`, `_num_embeds` is the first dimension, `_dim_rank` is the
rank minus one, and `_dim` is the list of remaining dimensions, except
that a length-one list is collapsed to the single dimension. -/
theorem init_parameterized_shape_metadata (s : EmbedderState) (hp : HParams)
    (d0 : Nat) (rest : List Nat) :
    (_init_parameterized_embedding s hp (d0 :: rest))._num_embeds = some d0 ∧
    (_init_parameterized_embedding s hp (d0 :: rest))._dim_rank =
      some rest.length ∧
    (_init_parameterized_embedding s hp (d0 :: rest))._dim =
      some (if rest.length = 1 then DimSpec.scalar rest.headI
            else DimSpec.dims rest) := by
  unfold _init_parameterized_embedding
  by_cases h : hp.trainable <;> simp [h]

/-- C5: `_init_parameterized_embedding` stores the embedding table, and
registers it among the trainable variables if and only if
`hparams.trainable` is true. -/
theorem init_parameterized_trainable (s : EmbedderState) (hp : HParams)
    (embShape : List Nat) :
    (_init_parameterized_embedding s hp embShape)._embedding =
      some embShape ∧
    (_init_parameterized_embedding s hp embShape).trainable_variables =
      (if hp.trainable then s.trainable_variables ++ [embShape]
       else s.trainable_variables) ∧
    (embShape ∈
        (_init_parameterized_embedding s hp embShape).trainable_variables ↔
      hp.trainable = true ∨ embShape ∈ s.trainable_variables) := by
  unfold _init_parameterized_embedding
  by_cases h : hp.trainable <;> simp [h]

/-- C6: the `num_embeds` property returns the constructor argument
(possibly `None`) before `_init_parameterized_embedding` runs, and the
first dimension of the constructed table afterwards. -/
theorem num_embeds_property :
    (∀ n : Option Nat, (EmbedderBase_init n).num_embeds = n) ∧
    (∀ (s : EmbedderState) (hp : HParams) (d0 : Nat) (rest : List Nat),
      (_init_parameterized_embedding s hp (d0 :: rest)).num_embeds =
        some d0) := by
  constructor
  · intro n; rfl
  · intro s hp d0 rest
    unfold EmbedderState.num_embeds _init_parameterized_embedding
    by_cases h : hp.trainable <;> simp [h]

/-- C8: the explicit `dropout_strategy` argument overrides
`hparams.dropout_strategy`; the hyperparameter is used only when the
argument is `None`. -/
theorem dropout_strategy_override (s : EmbedderState) (hp : HParams)
    (ir : Option Nat) (di : Option (List (Option Nat))) (v : String) :
    resolveStrategy hp (some v) = v ∧
    resolveStrategy hp none = hp.dropout_strategy ∧
    _get_dropout_layer s hp ir di (some v) =
      _get_dropout_layer s { hp with dropout_strategy := v } ir di none := by
  exact ⟨rfl, rfl, rfl⟩

/-- C1: when `hparams.dropout_rate > 0`, the constructed dropout layer's
noise shape follows the selected strategy: `None` for "element"; the
first `ids_rank` dimensions of `dropout_input`'s shape followed by
`_dim_rank` ones for "item"; `[None]` followed by `_dim_rank` ones for
"item_type". -/
theorem dropout_noise_shape_strategies (s : EmbedderState) (hp : HParams)
    (ir : Option Nat) (di : Option (List (Option Nat))) (ds : Option String)
    (h : hp.dropout_rate > 0) :
    (resolveStrategy hp ds = "element" →
      (_get_dropout_layer s hp ir di ds).2 =
        .ok (some { rate := hp.dropout_rate, noise_shape := none })) ∧
    (∀ (r : Nat) (dinput : List (Option Nat)) (dr : Nat),
      resolveStrategy hp ds = "item" → ir = some r → di = some dinput →
      s._dim_rank = some dr →
      (_get_dropout_layer s hp ir di ds).2 =
        .ok (some { rate := hp.dropout_rate,
                    noise_shape :=
                      some (dinput.take r ++ List.replicate dr (some 1)) })) ∧
    (∀ dr : Nat, resolveStrategy hp ds = "item_type" →
      s._dim_rank = some dr →
      (_get_dropout_layer s hp ir di ds).2 =
        .ok (some { rate := hp.dropout_rate,
                    noise_shape :=
                      some (none :: List.replicate dr (some 1)) })) := by
  refine ⟨?_, ?_, ?_⟩
  · intro hst
    unfold _get_dropout_layer
    rw [if_pos h, if_pos hst]
  · intro r dinput dr hst hir hdi hdr
    subst hir; subst hdi
    unfold _get_dropout_layer
    rw [if_pos h, if_neg (by rw [hst]; decide), if_pos hst]
    simp [hdr]
  · intro dr hst hdr
    unfold _get_dropout_layer
    rw [if_pos h, if_neg (by rw [hst]; decide),
        if_neg (by rw [hst]; decide), if_pos hst]
    simp [hdr]

theorem dropout_noise_shape_strategies_witness :
    (_get_dropout_layer (EmbedderBase_init none)
        { dropout_rate := 1, dropout_strategy := "element", trainable := true }
        none none none).2 =
      .ok (some { rate := 1, noise_shape := none }) :=
  (dropout_noise_shape_strategies (EmbedderBase_init none)
      { dropout_rate := 1, dropout_strategy := "element", trainable := true }
      none none none (by decide)).1 rfl

/-- C2: `_get_dropout_layer` raises `ValueError` exactly when the dropout
rate is positive and the resolved strategy is none of "element", "item",
"item_type"; every other operation of the class is a total function in
this embedding and raises no validation error. -/
theorem unknown_strategy_valueError (s : EmbedderState) (hp : HParams)
    (ir : Option Nat) (di : Option (List (Option Nat)))
    (ds : Option String) :
    (_get_dropout_layer s hp ir di ds).2 =
        .error (.valueError ("Unknown dropout strategy: " ++
                             resolveStrategy hp ds)) ↔
      (hp.dropout_rate > 0 ∧ resolveStrategy hp ds ≠ "element" ∧
        resolveStrategy hp ds ≠ "item" ∧
        resolveStrategy hp ds ≠ "item_type") := by
  unfold _get_dropout_layer
  by_cases h : hp.dropout_rate > 0
  · rw [if_pos h]
    by_cases he : resolveStrategy hp ds = "element"
    · rw [if_pos he]
      simp [he, h]
    · rw [if_neg he]
      by_cases hi : resolveStrategy hp ds = "item"
      · rw [if_pos hi]
        rcases di with _ | dinput
        · simp [h, hi]
        · rcases ir with _ | r
          · simp [h, hi]
          · rcases hdr : s._dim_rank with _ | dr <;> simp [hdr, h, hi]
      · rw [if_neg hi]
        by_cases ht : resolveStrategy hp ds = "item_type"
        · rw [if_pos ht]
          rcases hdr : s._dim_rank with _ | dr <;> simp [hdr, h, ht]
        · rw [if_neg ht]
          simp [h, he, hi, ht]
  · rw [if_neg h]
    simp [h]

/-- C3: `_get_dropout_layer` returns `None` (no dropout layer) precisely
when `hparams.dropout_rate` is zero or less, for every strategy argument,
known or unknown, and no error is raised in that case. -/
theorem no_dropout_layer_iff_rate_nonpos (s : EmbedderState) (hp : HParams)
    (ir : Option Nat) (di : Option (List (Option Nat)))
    (ds : Option String) :
    (_get_dropout_layer s hp ir di ds).2 = .ok none ↔
      hp.dropout_rate ≤ 0 := by
  unfold _get_dropout_layer
  by_cases h : hp.dropout_rate > 0
  · rw [if_pos h]
    constructor
    · intro hc
      exfalso
      repeat' split at hc
      all_goals simp at hc
    · intro hle
      exact absurd h (not_lt.mpr hle)
  · rw [if_neg h]
    simp [not_lt.mp h]

/-- C7: with a positive dropout rate and resolved strategy "item",
`_get_dropout_layer` raises `AssertionError` exactly when
`dropout_input` or `ids_rank` is `None`; when both are provided, or the
strategy is not "item", no assertion fails. -/
theorem item_assertion_characterization (s : EmbedderState) (hp : HParams)
    (ir : Option Nat) (di : Option (List (Option Nat)))
    (ds : Option String) :
    (_get_dropout_layer s hp ir di ds).2 = .error .assertionError ↔
      (hp.dropout_rate > 0 ∧ resolveStrategy hp ds = "item" ∧
        (di = none ∨ ir = none)) := by
  unfold _get_dropout_layer
  by_cases h : hp.dropout_rate > 0
  · rw [if_pos h]
    by_cases he : resolveStrategy hp ds = "element"
    · rw [if_pos he]
      simp [he, h]
    · rw [if_neg he]
      by_cases hi : resolveStrategy hp ds = "item"
      · rw [if_pos hi]
        rcases di with _ | dinput
        · simp [h, hi]
        · rcases ir with _ | r
          · simp [h, hi]
          · rcases hdr : s._dim_rank with _ | dr <;> simp [hdr, h, hi]
      · rw [if_neg hi]
        by_cases ht : resolveStrategy hp ds = "item_type"
        · rw [if_pos ht]
          rcases hdr : s._dim_rank with _ | dr <;> simp [hdr, hi]
        · rw [if_neg ht]
          simp [hi]
  · rw [if_neg h]
    simp [h]

/-- C9: `_get_dropout_layer` assigns no attribute: every field of the
state after the call equals its value before the call. -/
theorem get_dropout_layer_frame (s : EmbedderState) (hp : HParams)
    (ir : Option Nat) (di : Option (List (Option Nat)))
    (ds : Option String) :
    ((_get_dropout_layer s hp ir di ds).1)._embedding = s._embedding ∧
    ((_get_dropout_layer s hp ir di ds).1)._num_embeds = s._num_embeds ∧
    ((_get_dropout_layer s hp ir di ds).1)._dim = s._dim ∧
    ((_get_dropout_layer s hp ir di ds).1)._dim_rank = s._dim_rank := by
  have h : (_get_dropout_layer s hp ir di ds).1 = s := by
    unfold _get_dropout_layer
    repeat' split
    all_goals rfl
  rw [h]
  exact ⟨rfl, rfl, rfl, rfl⟩
